import Mathlib

/-!
Verification of the Route reconciliation pipeline of this repository
(`pkg/controller/route`).  The repository snapshot contains the table test
of the reconciler (`pkg/controller/route/table_test.go`) and an unrelated
build API type; the reconciler implementation itself is absent, so the
pipeline below is modelled from the specification (spec.md §3–§4.5), with
every behaviour that the table test pins taken from the test:

* the binder label sync runs regardless of the traffic-resolution outcome
  (cases "configuration not yet ready", "revision missing (indirect)" of
  TestReconcile expect the binder label to be added although resolution
  failed);
* the label-removal pass issues an update to every configuration of the
  namespace outside the referenced set, even when the configuration does
  not carry the label at all (cases "revision missing (direct)" and
  "pinned route becomes ready", marked TODO #1496 in the test);
* for a RunLatest entry the resolver also requires the latest-ready
  Revision object to exist, reporting its absence as ConfigurationMissing
  (case "revision missing (indirect)", marked TODO #1494 in the test).
-/

deriving instance DecidableEq for Except

namespace Serving

/-- Status value of a condition, mirroring `corev1.ConditionStatus`. -/
inductive CondStatus
  | ctrue
  | cfalse
  | cunknown
deriving DecidableEq

/-- Condition type of a Route condition (`v1alpha1.RouteConditionType`). -/
inductive CondType
  | allTrafficAssigned
  | ready
deriving DecidableEq

/-- A Route status condition (`v1alpha1.RouteCondition`); the
last-transition timestamp is not modelled. -/
structure RouteCondition where
  ctype : CondType
  status : CondStatus
  reason : String
  message : String
deriving DecidableEq

/-- A traffic entry (`v1alpha1.TrafficTarget`), used both in the Route
spec and in the resolved status traffic.  Go zero values are modelled as
the empty string: an entry is Pinned when `revisionName` is nonempty and
RunLatest otherwise. -/
structure TrafficTarget where
  name : String
  configurationName : String
  revisionName : String
  percent : Nat
deriving DecidableEq

/-- The status of a Route (`v1alpha1.RouteStatus`). -/
structure RouteStatus where
  domain : String
  conditions : List RouteCondition
  traffic : List TrafficTarget
deriving DecidableEq

/-- A Route resource: identity, labels, spec traffic list and status. -/
structure Route where
  ns : String
  name : String
  labels : List (String × String)
  traffic : List TrafficTarget
  status : RouteStatus
deriving DecidableEq

/-- A ConfigurationGroup (`v1alpha1.Configuration`): identity, labels
(the binder label lives here) and the latest created/ready revision
names, with `""` meaning unset. -/
structure Configuration where
  ns : String
  name : String
  labels : List (String × String)
  latestCreatedRevisionName : String
  latestReadyRevisionName : String
deriving DecidableEq

/-- A Revision: identity plus the optional owner reference back to its
ConfigurationGroup. -/
structure Revision where
  ns : String
  name : String
  ownerConfiguration : Option String
deriving DecidableEq

/-- A resolved traffic target (`traffic.RevisionTarget`): the spec entry
flattened to a concrete revision name; `active` is always true in this
core. -/
structure RevisionTarget where
  name : String
  configurationName : String
  revisionName : String
  percent : Nat
  active : Bool
deriving DecidableEq

/-- The endpoint object (placeholder k8s Service): `clusterIP` is the
platform-assigned address excluded from the controller-managed field
subset. -/
structure K8sService where
  ns : String
  name : String
  selector : List (String × String)
  clusterIP : String
deriving DecidableEq

/-- The mesh-rule object (Istio VirtualService), pinned down to the parts
the spec constrains: identity, the Route domain and the weighted backend
targets grouped by group key. -/
structure VirtualService where
  ns : String
  name : String
  domain : String
  targets : List (String × List RevisionTarget)
deriving DecidableEq

/-- The read-only cluster snapshot served to a reconcile: the listers for
Configurations, Revisions, endpoint objects and mesh-rule objects. -/
structure Cluster where
  configurations : List Configuration
  revisions : List Revision
  services : List K8sService
  virtualServices : List VirtualService
deriving DecidableEq

/-- Label lookup in an association list, mirroring Go map indexing. -/
def lookupLabel (ls : List (String × String)) (k : String) : Option String :=
  (ls.find? (fun p => p.1 == k)).map Prod.snd

/-- Set a label, replacing an existing binding for the key. -/
def setLabel (ls : List (String × String)) (k v : String) : List (String × String) :=
  if ls.any (fun p => p.1 == k) then ls.map (fun p => if p.1 == k then (k, v) else p)
  else ls ++ [(k, v)]

/-- Remove a label key (a no-op on the list when the key is absent). -/
def removeLabel (ls : List (String × String)) (k : String) : List (String × String) :=
  ls.filter (fun p => p.1 != k)

/-- The binder label key attached to Configurations
(`serving.knative.dev/route` in the test). -/
def routeLabelKey : String := "serving.knative.dev/route"

/-- Namespace-scoped Configuration lookup (`configurationLister`). -/
def getConfiguration (c : Cluster) (ns name : String) : Option Configuration :=
  c.configurations.find? (fun cfg => cfg.ns == ns && cfg.name == name)

/-- Namespace-scoped Revision lookup (`revisionLister`). -/
def getRevision (c : Cluster) (ns name : String) : Option Revision :=
  c.revisions.find? (fun rev => rev.ns == ns && rev.name == name)

/-- Namespace-scoped endpoint object lookup (`serviceLister`). -/
def getService (c : Cluster) (ns name : String) : Option K8sService :=
  c.services.find? (fun s => s.ns == ns && s.name == name)

/-- Namespace-scoped mesh-rule object lookup (`virtualServiceLister`). -/
def getVirtualService (c : Cluster) (ns name : String) : Option VirtualService :=
  c.virtualServices.find? (fun v => v.ns == ns && v.name == name)

/-- Traffic-resolution failures (spec §4.1 / §7). -/
inductive ResolveError
  | configurationMissing (name : String)
  | revisionMissing (name : String)
deriving DecidableEq

/-- Reconcile-level failures returned to the caller. -/
inductive ReconcileError
  | resolutionFailed (e : ResolveError)
  | configurationConflict (name owner : String)
deriving DecidableEq

/-- Modelled from the spec: §4.1 TrafficResolver on a single entry.  The
TrafficResolver implementation is not in the repository snapshot.  A
Pinned entry requires the Revision to exist; a RunLatest entry requires
the ConfigurationGroup to exist, its `latestReadyRevision` to be set and
(as pinned by the "revision missing (indirect)" test case, TODO #1494)
that revision object to exist — all three failures collapse to
`ConfigurationMissing(groupName)`. -/
def resolveEntry (c : Cluster) (ns : String) (e : TrafficTarget) : Except ResolveError RevisionTarget :=
  if e.revisionName != "" then
    match getRevision c ns e.revisionName with
    | none => .error (.revisionMissing e.revisionName)
    | some _ => .ok { name := e.name, configurationName := "",
                      revisionName := e.revisionName, percent := e.percent, active := true }
  else
    match getConfiguration c ns e.configurationName with
    | none => .error (.configurationMissing e.configurationName)
    | some cfg =>
      if cfg.latestReadyRevisionName == "" then
        .error (.configurationMissing e.configurationName)
      else
        match getRevision c ns cfg.latestReadyRevisionName with
        | none => .error (.configurationMissing e.configurationName)
        | some _ => .ok { name := e.name, configurationName := e.configurationName,
                          revisionName := cfg.latestReadyRevisionName,
                          percent := e.percent, active := true }

/-- Modelled from the spec: §4.1 TrafficResolver over the ordered entry
list; the first failure aborts the whole resolution. -/
def resolveTraffic (c : Cluster) (ns : String) : List TrafficTarget → Except ResolveError (List RevisionTarget)
  | [] => .ok []
  | e :: es =>
    match resolveEntry c ns e with
    | .error err => .error err
    | .ok t =>
      match resolveTraffic c ns es with
      | .error err => .error err
      | .ok ts => .ok (t :: ts)

/-- An ordered domain-configuration entry: a domain suffix together with
the label selector a Route must satisfy to receive it. -/
abbrev DomainSelector := List (String × String)

/-- The externally supplied ordered list of (suffix, selector) pairs. -/
abbrev DomainConfig := List (String × DomainSelector)

/-- A Route matches a selector iff every key/value pair of the selector is
present and equal in the Route's labels; the empty selector matches
everything. -/
def selectorMatches (sel : DomainSelector) (labels : List (String × String)) : Bool :=
  sel.all (fun kv => lookupLabel labels kv.1 == some kv.2)

/-- Modelled from the spec: §4.2 DomainResolver selection — among the
entries whose selector the Route's labels satisfy, the one with the most
selector constraints wins, ties broken by declared order.  The
DomainResolver implementation is not in the repository snapshot. -/
def pickDomain (labels : List (String × String)) : DomainConfig → Option (String × DomainSelector)
  | [] => none
  | d :: ds =>
    let rest := pickDomain labels ds
    if selectorMatches d.2 labels then
      match rest with
      | none => some d
      | some r => if r.2.length > d.2.length then some r else some d
    else rest

/-- Modelled from the spec: §4.2 — the computed Route domain
`"<route-name>.<route-namespace>.<matched-suffix>"`. -/
def routeDomain (dc : DomainConfig) (r : Route) : String :=
  match pickDomain r.labels dc with
  | some d => r.name ++ "." ++ r.ns ++ "." ++ d.1
  | none => r.name ++ "." ++ r.ns ++ "."

/-- Deduplicate a list of names keeping first occurrences, mirroring the
set semantics of a Go map keyed by name. -/
def dedupStr (l : List String) : List String :=
  l.foldl (fun acc s => if acc.contains s then acc else acc ++ [s]) []

/-- The group names referenced by the Route's RunLatest entries, in spec
order.  Pinned entries contribute nothing (the parent configuration of a
pinned revision is not labelled, TODO #1495 in the test). -/
def referencedNames (r : Route) : List String :=
  dedupStr (r.traffic.filterMap (fun e =>
    if e.revisionName == "" then some e.configurationName else none))

/-- The existing ConfigurationGroups referenced by the Route's RunLatest
entries — the binder's bind set. -/
def referencedConfigurations (c : Cluster) (r : Route) : List Configuration :=
  (referencedNames r).filterMap (fun n => getConfiguration c r.ns n)

/-- Modelled from the spec: §4.3 step 1 conflict validation — the first
referenced group whose binder label names a different Route, if any. -/
def findConflict (c : Cluster) (r : Route) : Option (String × String) :=
  (referencedConfigurations c r).findSome? (fun cfg =>
    match lookupLabel cfg.labels routeLabelKey with
    | some owner => if owner != r.name then some (cfg.name, owner) else none
    | none => none)

/-- A write against the authoritative store. -/
inductive Write
  | createService (s : K8sService)
  | updateService (s : K8sService)
  | createVirtualService (v : VirtualService)
  | updateVirtualService (v : VirtualService)
  | updateConfiguration (cfg : Configuration)
  | updateRouteStatus (ns name : String) (st : RouteStatus)
deriving DecidableEq

/-- Modelled from the spec: §4.3 step 2, with the behaviour pinned by the
table test (TODO #1496): an update removing the binder label is issued to
every Configuration of the Route's namespace outside the referenced set,
even when the configuration carries no binder label, so the update need
not change the object. -/
def binderRemovalWrites (c : Cluster) (r : Route) : List Write :=
  (c.configurations.filter (fun cfg =>
      cfg.ns == r.ns && !((referencedNames r).contains cfg.name))).map
    (fun cfg => .updateConfiguration { cfg with labels := removeLabel cfg.labels routeLabelKey })

/-- Modelled from the spec: §4.3 step 1 binding — each referenced
existing group not yet labelled with this Route's name gets the binder
label set. -/
def binderAddWrites (c : Cluster) (r : Route) : List Write :=
  (referencedConfigurations c r).filterMap (fun cfg =>
    if lookupLabel cfg.labels routeLabelKey == some r.name then none
    else some (.updateConfiguration { cfg with labels := setLabel cfg.labels routeLabelKey r.name }))

/-- Modelled from the spec: §4.4 — the desired endpoint object, a
deterministic shape derived from the Route identity with the
platform-assigned address left empty. -/
def mkK8sService (r : Route) : K8sService :=
  { ns := r.ns, name := r.name,
    selector := [(routeLabelKey, r.name)], clusterIP := "" }

/-- Equality on the controller-managed field subset of the endpoint
object: everything except the platform-assigned `clusterIP`. -/
def serviceManagedEq (a b : K8sService) : Bool :=
  a.ns == b.ns && a.name == b.name && a.selector == b.selector

/-- Modelled from the spec: §4.5 step 5 — converge the endpoint object:
create if absent, update iff the controller-managed fields differ (the
update carries the previously observed `clusterIP` forward unchanged),
no-op otherwise. -/
def convergeService (c : Cluster) (r : Route) : List Write :=
  match getService c r.ns r.name with
  | none => [.createService (mkK8sService r)]
  | some ex =>
    if serviceManagedEq ex (mkK8sService r) then []
    else [.updateService { mkK8sService r with clusterIP := ex.clusterIP }]

/-- Group resolved targets by their group key, first-occurrence order. -/
def groupTargets (ts : List RevisionTarget) : List (String × List RevisionTarget) :=
  (dedupStr (ts.map (fun t => t.name))).map
    (fun k => (k, ts.filter (fun t => t.name == k)))

/-- Modelled from the spec: §4.4 — the desired mesh-rule object: one
weighted backend per resolved target, grouped by group key, in resolution
order. -/
def mkVirtualService (r : Route) (domain : String) (ts : List RevisionTarget) : VirtualService :=
  { ns := r.ns, name := r.name, domain := domain, targets := groupTargets ts }

/-- Modelled from the spec: §4.5 step 6 — converge the mesh-rule object
with the same create/update/no-op policy, on full equality. -/
def convergeVirtualService (c : Cluster) (r : Route) (domain : String) (ts : List RevisionTarget) : List Write :=
  let desired := mkVirtualService r domain ts
  match getVirtualService c r.ns r.name with
  | none => [.createVirtualService desired]
  | some ex => if ex == desired then [] else [.updateVirtualService desired]

/-- The mesh-rule convergence writes: skipped entirely when resolution
failed (spec §4.5 step 2: only mesh-rule synthesis is skipped). -/
def vsWrites (c : Cluster) (r : Route) (domain : String) : Except ResolveError (List RevisionTarget) → List Write
  | .ok ts => convergeVirtualService c r domain ts
  | .error _ => []

/-- The success conditions pair: both `AllTrafficAssigned` and `Ready`
True. -/
def successConds : List RouteCondition :=
  [{ ctype := .allTrafficAssigned, status := .ctrue, reason := "", message := "" },
   { ctype := .ready, status := .ctrue, reason := "", message := "" }]

/-- The machine-readable reason and human-readable message of a
resolution failure (spec §4.5 step 2). -/
def failureReason : ResolveError → String × String
  | .configurationMissing n =>
    ("ConfigurationMissing", "Referenced Configuration \"" ++ n ++ "\" not found")
  | .revisionMissing n =>
    ("RevisionMissing", "Referenced Revision \"" ++ n ++ "\" not found")

/-- The failure conditions pair derived from the error kind (spec §4.5
step 2): both conditions False with the same machine-readable reason and
human-readable message. -/
def failureConds (e : ResolveError) : List RouteCondition :=
  [{ ctype := .allTrafficAssigned, status := .cfalse,
     reason := (failureReason e).1, message := (failureReason e).2 },
   { ctype := .ready, status := .cfalse,
     reason := (failureReason e).1, message := (failureReason e).2 }]

/-- Project a resolved target onto a status traffic entry. -/
def targetToTrafficTarget (t : RevisionTarget) : TrafficTarget :=
  { name := t.name, configurationName := t.configurationName,
    revisionName := t.revisionName, percent := t.percent }

/-- Modelled from the spec: §4.5 step 7 — the Route status recomputed
from the resolution outcome and the computed domain. -/
def computedStatus (domain : String) : Except ResolveError (List RevisionTarget) → RouteStatus
  | .ok ts => { domain := domain, conditions := successConds,
                traffic := ts.map targetToTrafficTarget }
  | .error e => { domain := domain, conditions := failureConds e, traffic := [] }

/-- Modelled from the spec: §4.5 step 7 — write the status only if the
computed status differs from the stored status. -/
def convergeStatus (r : Route) (st : RouteStatus) : List Write :=
  if r.status == st then [] else [.updateRouteStatus r.ns r.name st]

/-- The error a reconcile reports: the resolution failure, if any. -/
def reconcileErr (c : Cluster) (r : Route) : Option ReconcileError :=
  match resolveTraffic c r.ns r.traffic with
  | .ok _ => none
  | .error e => some (.resolutionFailed e)

/-- The outcome of one reconcile: the ordered writes issued against the
store and the failure returned to the caller, if any. -/
structure ReconcileResult where
  writes : List Write
  err : Option ReconcileError
deriving DecidableEq

/-- Modelled from the spec: §4.5 ReconcileEngine over a fetched Route.
The reconciler implementation is not in the repository snapshot; the
pipeline order follows the spec and the table test: the binder conflict
check is terminal with zero writes of any kind (spec §4.3/§7); otherwise
the binder label sync runs (removals, then additions — regardless of the
resolution outcome, as the "configuration not yet ready" and "revision
missing" test cases pin), then mesh-rule convergence (skipped on
resolution failure), endpoint convergence, and the suppressed-no-op
status write. -/
def reconcile (dc : DomainConfig) (c : Cluster) (r : Route) : ReconcileResult :=
  match findConflict c r with
  | some p => { writes := [], err := some (.configurationConflict p.1 p.2) }
  | none =>
    { writes :=
        binderRemovalWrites c r ++ binderAddWrites c r
          ++ vsWrites c r (routeDomain dc r) (resolveTraffic c r.ns r.traffic)
          ++ convergeService c r
          ++ convergeStatus r (computedStatus (routeDomain dc r) (resolveTraffic c r.ns r.traffic)),
      err := reconcileErr c r }

/-! Fixtures mirroring the helpers of
`src/pkg/controller/route/table_test.go`. -/

/-- The empty Route status (a Route built with `status = nil`). -/
def nilRouteStatus : RouteStatus := { domain := "", conditions := [], traffic := [] }

/-- Mirror of `routeWithTraffic` of the table test. -/
def routeWithTraffic (ns name : String) (st : RouteStatus) (tr : List TrafficTarget) : Route :=
  { ns := ns, name := name, labels := [], traffic := tr, status := st }

/-- Mirror of `simpleRunLatest` of the table test: one RunLatest entry at 100%. -/
def simpleRunLatest (ns name cfg : String) (st : RouteStatus) : Route :=
  routeWithTraffic ns name st
    [{ name := "", configurationName := cfg, revisionName := "", percent := 100 }]

/-- Mirror of `simplePinned` of the table test: one Pinned entry at 100%. -/
def simplePinned (ns name rev : String) (st : RouteStatus) : Route :=
  routeWithTraffic ns name st
    [{ name := "", configurationName := "", revisionName := rev, percent := 100 }]

/-- Mirror of `simpleNotReadyConfig` of the table test: latest created revision set,
latest ready revision unset. -/
def simpleNotReadyConfig (ns name : String) : Configuration :=
  { ns := ns, name := name, labels := [],
    latestCreatedRevisionName := name ++ "-00001", latestReadyRevisionName := "" }

/-- Mirror of `simpleReadyConfig` of the table test: latest ready = latest created. -/
def simpleReadyConfig (ns name : String) : Configuration :=
  { ns := ns, name := name, labels := [],
    latestCreatedRevisionName := name ++ "-00001",
    latestReadyRevisionName := name ++ "-00001" }

/-- Mirror of `addConfigLabel` of the table test. -/
def addConfigLabel (cfg : Configuration) (k v : String) : Configuration :=
  { cfg with labels := cfg.labels ++ [(k, v)] }

/-- Mirror of `addRouteLabel` of the table test. -/
def addRouteLabel (r : Route) (k v : String) : Route :=
  { r with labels := r.labels ++ [(k, v)] }

/-- Mirror of `simpleReadyRevision` of the table test (no owner reference). -/
def simpleReadyRevision (ns name : String) : Revision :=
  { ns := ns, name := name, ownerConfiguration := none }

/-- Mirror of `setClusterIP` of the table test. -/
def setClusterIP (s : K8sService) (ip : String) : K8sService :=
  { s with clusterIP := ip }

/-- The `domainConfig` of the table test, as the ordered list the spec
describes: the empty-selector fallback `example.com` and the
`app=prod`-guarded `another-example.com`. -/
def defaultDomainConfig : DomainConfig :=
  [("example.com", []), ("another-example.com", [("app", "prod")])]

/-- A fully converged Route in the sense of the spec's idempotence
property (§8): traffic resolution succeeds, the binder labels match the
desired binding state (every referenced group labelled with this Route's
name and no other group of the namespace carrying this Route's name), and
the mesh-rule object, the endpoint object and the stored status all
already match the desired state computed from the spec. -/
def converged (dc : DomainConfig) (c : Cluster) (r : Route) : Bool :=
  match resolveTraffic c r.ns r.traffic with
  | .error _ => false
  | .ok ts =>
    ((referencedConfigurations c r).all
        (fun cfg => lookupLabel cfg.labels routeLabelKey == some r.name))
      && (c.configurations.all (fun cfg =>
            !(cfg.ns == r.ns) || (referencedNames r).contains cfg.name
              || !(lookupLabel cfg.labels routeLabelKey == some r.name)))
      && (convergeVirtualService c r (routeDomain dc r) ts == [])
      && (convergeService c r == [])
      && (r.status == computedStatus (routeDomain dc r) (.ok ts))

/-! Concrete fixtures taken from the rows of `TestReconcile`. -/

/-- Cluster of the "configuration not yet ready" row. -/
def notReadyCluster : Cluster :=
  { configurations := [simpleNotReadyConfig "default" "not-ready"],
    revisions := [simpleReadyRevision "default" "not-ready-00001"],
    services := [], virtualServices := [] }

/-- Route of the "configuration not yet ready" row. -/
def firstReconcileRoute : Route :=
  simpleRunLatest "default" "first-reconcile" "not-ready" nilRouteStatus

/-- Ready status of the "steady state" row. -/
def steadyStatus : RouteStatus :=
  { domain := "steady-state.default.example.com", conditions := successConds,
    traffic := [{ name := "", configurationName := "config",
                  revisionName := "config-00001", percent := 100 }] }

/-- Route of the "steady state" row. -/
def steadyRoute : Route := simpleRunLatest "default" "steady-state" "config" steadyStatus

/-- Resolved target of the "steady state" row. -/
def steadyTarget : RevisionTarget :=
  { name := "", configurationName := "config", revisionName := "config-00001",
    percent := 100, active := true }

/-- Cluster of the "steady state" row: everything already converged. -/
def steadyCluster : Cluster :=
  { configurations := [addConfigLabel (simpleReadyConfig "default" "config") routeLabelKey "steady-state"],
    revisions := [simpleReadyRevision "default" "config-00001"],
    services := [mkK8sService steadyRoute],
    virtualServices := [mkVirtualService steadyRoute "steady-state.default.example.com" [steadyTarget]] }

/-- Stored status of the "config labelled by another route" row. -/
def lickedStatus : RouteStatus :=
  { domain := "licked-cookie.default.example.com", conditions := successConds,
    traffic := [{ name := "", configurationName := "config",
                  revisionName := "config-00001", percent := 100 }] }

/-- Route of the "config labelled by another route" row. -/
def lickedRoute : Route := simpleRunLatest "default" "licked-cookie" "config" lickedStatus

/-- Resolved target shared by the "config labelled by another route"
row. -/
def lickedTarget : RevisionTarget :=
  { name := "", configurationName := "config", revisionName := "config-00001",
    percent := 100, active := true }

/-- Cluster of the "config labelled by another route" row: the referenced
group is already bound to `this-cookie-has-been-licked`. -/
def lickedCluster : Cluster :=
  { configurations := [addConfigLabel (simpleReadyConfig "default" "config") routeLabelKey "this-cookie-has-been-licked"],
    revisions := [simpleReadyRevision "default" "config-00001"],
    services := [mkK8sService lickedRoute],
    virtualServices := [mkVirtualService lickedRoute "licked-cookie.default.example.com" [lickedTarget]] }

/-- Converged status of the "pinned route becomes ready" row. -/
def pinnedStatus : RouteStatus :=
  { domain := "pinned-becomes-ready.default.example.com", conditions := successConds,
    traffic := [{ name := "", configurationName := "",
                  revisionName := "config-00001", percent := 100 }] }

/-- Pinned Route of the "pinned route becomes ready" row, with its
converged status. -/
def pinnedRoute : Route := simplePinned "default" "pinned-becomes-ready" "config-00001" pinnedStatus

/-- Resolved target of the pinned Route. -/
def pinnedTarget : RevisionTarget :=
  { name := "", configurationName := "", revisionName := "config-00001",
    percent := 100, active := true }

/-- Cluster of the "pinned route becomes ready" row after convergence:
the parent group exists and carries no binder label, the downstream
objects and status match the desired state. -/
def pinnedCluster : Cluster :=
  { configurations := [simpleReadyConfig "default" "config"],
    revisions := [{ ns := "default", name := "config-00001", ownerConfiguration := some "config" }],
    services := [mkK8sService pinnedRoute],
    virtualServices := [mkVirtualService pinnedRoute "pinned-becomes-ready.default.example.com" [pinnedTarget]] }

/-- Converged status of the "allow cluster ip" row. -/
def ipStatus : RouteStatus :=
  { domain := "cluster-ip.default.example.com", conditions := successConds,
    traffic := [{ name := "", configurationName := "config",
                  revisionName := "config-00001", percent := 100 }] }

/-- Route of the "allow cluster ip" row. -/
def ipRoute : Route := simpleRunLatest "default" "cluster-ip" "config" ipStatus

/-- Resolved target of the "allow cluster ip" row. -/
def ipTarget : RevisionTarget :=
  { name := "", configurationName := "config", revisionName := "config-00001",
    percent := 100, active := true }

/-- Cluster of the "allow cluster ip" row: the endpoint object matches
the desired shape except for its assigned address `127.0.0.1`. -/
def ipCluster : Cluster :=
  { configurations := [addConfigLabel (simpleReadyConfig "default" "config") routeLabelKey "cluster-ip"],
    revisions := [simpleReadyRevision "default" "config-00001"],
    services := [setClusterIP (mkK8sService ipRoute) "127.0.0.1"],
    virtualServices := [mkVirtualService ipRoute "cluster-ip.default.example.com" [ipTarget]] }

/-- Route of the "different labels, different domain" row: the `app=prod`
label selects the `another-example.com` suffix. -/
def differentDomainRoute : Route :=
  addRouteLabel (simpleRunLatest "default" "different-domain" "config" nilRouteStatus) "app" "prod"

/-- Route of the "traffic split becomes ready" row: two RunLatest entries
at 50% each. -/
def splitRoute : Route :=
  routeWithTraffic "default" "named-traffic-split" nilRouteStatus
    [{ name := "", configurationName := "blue", revisionName := "", percent := 50 },
     { name := "", configurationName := "green", revisionName := "", percent := 50 }]

/-- Cluster of the "traffic split becomes ready" row. -/
def splitCluster : Cluster :=
  { configurations := [simpleReadyConfig "default" "blue", simpleReadyConfig "default" "green"],
    revisions := [{ ns := "default", name := "blue-00001", ownerConfiguration := some "blue" },
                  { ns := "default", name := "green-00001", ownerConfiguration := some "green" }],
    services := [], virtualServices := [] }

/-- Route of the "simple route becomes ready" row. -/
def becomesReadyRoute : Route := simpleRunLatest "default" "becomes-ready" "config" nilRouteStatus

/-- Cluster of the "simple route becomes ready" row. -/
def becomesReadyCluster : Cluster :=
  { configurations := [simpleReadyConfig "default" "config"],
    revisions := [simpleReadyRevision "default" "config-00001"],
    services := [], virtualServices := [] }

/-! The configuration-switch scenario (spec §8 Scenario C, table test row
"switch to a different config"), parameterized over the names. -/

/-- A ready Configuration with explicit labels and revision name. -/
def readyConfigWith (ns n rev : String) (ls : List (String × String)) : Configuration :=
  { ns := ns, name := n, labels := ls,
    latestCreatedRevisionName := rev, latestReadyRevisionName := rev }

/-- The Route of the switch scenario: the spec references `newC` while
the stored status still reflects `oldC`. -/
def switchSpecRoute (ns rn oldC newC oldRev : String) : Route :=
  { ns := ns, name := rn, labels := [],
    traffic := [{ name := "", configurationName := newC, revisionName := "", percent := 100 }],
    status := { domain := rn ++ "." ++ ns ++ "." ++ "example.com",
                conditions := successConds,
                traffic := [{ name := "", configurationName := oldC,
                              revisionName := oldRev, percent := 100 }] } }

/-- The cluster of the switch scenario: `oldC` still bound to the Route,
`newC` ready and unbound, downstream objects still shaped for `oldC`. -/
def switchSpecCluster (ns rn oldC newC oldRev newRev : String) : Cluster :=
  { configurations := [readyConfigWith ns oldC oldRev [(routeLabelKey, rn)],
                       readyConfigWith ns newC newRev []],
    revisions := [{ ns := ns, name := oldRev, ownerConfiguration := none },
                  { ns := ns, name := newRev, ownerConfiguration := none }],
    services := [mkK8sService (switchSpecRoute ns rn oldC newC oldRev)],
    virtualServices := [mkVirtualService (switchSpecRoute ns rn oldC newC oldRev)
      (rn ++ "." ++ ns ++ "." ++ "example.com")
      [{ name := "", configurationName := oldC, revisionName := oldRev,
         percent := 100, active := true }]] }

/-! Structural lemmas about the pipeline's writes. -/

theorem reconcile_writes_of_noConflict {dc : DomainConfig} {c : Cluster} {r : Route}
    (hconf : findConflict c r = none) :
    (reconcile dc c r).writes =
      binderRemovalWrites c r ++ binderAddWrites c r
        ++ vsWrites c r (routeDomain dc r) (resolveTraffic c r.ns r.traffic)
        ++ convergeService c r
        ++ convergeStatus r (computedStatus (routeDomain dc r) (resolveTraffic c r.ns r.traffic)) := by
  unfold reconcile
  rw [hconf]

theorem reconcile_err_of_noConflict {dc : DomainConfig} {c : Cluster} {r : Route}
    (hconf : findConflict c r = none) :
    (reconcile dc c r).err = reconcileErr c r := by
  unfold reconcile
  rw [hconf]

theorem reconcile_of_conflict {dc : DomainConfig} {c : Cluster} {r : Route} {p : String × String}
    (hconf : findConflict c r = some p) :
    reconcile dc c r = { writes := [], err := some (.configurationConflict p.1 p.2) } := by
  unfold reconcile
  rw [hconf]

theorem binderRemovalWrites_shape {c : Cluster} {r : Route} {w : Write}
    (h : w ∈ binderRemovalWrites c r) : ∃ cfg, w = .updateConfiguration cfg := by
  simp only [binderRemovalWrites, List.mem_map] at h
  obtain ⟨cfg, -, rfl⟩ := h
  exact ⟨_, rfl⟩

theorem binderAddWrites_shape {c : Cluster} {r : Route} {w : Write}
    (h : w ∈ binderAddWrites c r) : ∃ cfg, w = .updateConfiguration cfg := by
  simp only [binderAddWrites, List.mem_filterMap] at h
  obtain ⟨cfg, -, hsome⟩ := h
  split at hsome
  · exact absurd hsome (by simp)
  · exact ⟨_, (Option.some_inj.mp hsome).symm⟩

theorem vsWrites_shape {c : Cluster} {r : Route} {d : String}
    {res : Except ResolveError (List RevisionTarget)} {w : Write}
    (h : w ∈ vsWrites c r d res) :
    (∃ v, w = .createVirtualService v) ∨ (∃ v, w = .updateVirtualService v) := by
  cases res with
  | error e => simp [vsWrites] at h
  | ok ts =>
    simp only [vsWrites, convergeVirtualService] at h
    cases hvs : getVirtualService c r.ns r.name with
    | none =>
      simp only [hvs, List.mem_singleton] at h
      exact .inl ⟨_, h⟩
    | some ex =>
      simp only [hvs] at h
      split at h
      · exact absurd h (by simp)
      · simp only [List.mem_singleton] at h
        exact .inr ⟨_, h⟩

theorem convergeService_shape {c : Cluster} {r : Route} {w : Write}
    (h : w ∈ convergeService c r) :
    (∃ s, w = .createService s) ∨ (∃ s, w = .updateService s) := by
  unfold convergeService at h
  cases hs : getService c r.ns r.name with
  | none =>
    simp only [hs, List.mem_singleton] at h
    exact .inl ⟨_, h⟩
  | some ex =>
    simp only [hs] at h
    split at h
    · exact absurd h (by simp)
    · simp only [List.mem_singleton] at h
      exact .inr ⟨_, h⟩

theorem convergeStatus_shape {r : Route} {st : RouteStatus} {w : Write}
    (h : w ∈ convergeStatus r st) : w = .updateRouteStatus r.ns r.name st := by
  unfold convergeStatus at h
  split at h
  · exact absurd h (by simp)
  · simpa using h

theorem mem_writes_updateRouteStatus {dc : DomainConfig} {c : Cluster} {r : Route}
    {ns n : String} {st : RouteStatus}
    (h : Write.updateRouteStatus ns n st ∈ (reconcile dc c r).writes) :
    ns = r.ns ∧ n = r.name ∧
      st = computedStatus (routeDomain dc r) (resolveTraffic c r.ns r.traffic) ∧
      findConflict c r = none := by
  cases hconf : findConflict c r with
  | some p =>
    rw [reconcile_of_conflict hconf] at h
    exact absurd h (by simp)
  | none =>
    rw [reconcile_writes_of_noConflict hconf] at h
    simp only [List.mem_append] at h
    rcases h with ((((h | h) | h) | h) | h)
    · obtain ⟨cfg, hc⟩ := binderRemovalWrites_shape h
      exact absurd hc (by simp)
    · obtain ⟨cfg, hc⟩ := binderAddWrites_shape h
      exact absurd hc (by simp)
    · rcases vsWrites_shape h with ⟨v, hc⟩ | ⟨v, hc⟩ <;> exact absurd hc (by simp)
    · rcases convergeService_shape h with ⟨s, hc⟩ | ⟨s, hc⟩ <;> exact absurd hc (by simp)
    · have := convergeStatus_shape h
      injection this with h1 h2 h3
      exact ⟨h1, h2, h3, rfl⟩

theorem mem_writes_updateService {dc : DomainConfig} {c : Cluster} {r : Route} {s : K8sService}
    (h : Write.updateService s ∈ (reconcile dc c r).writes) :
    ∃ ex, getService c r.ns r.name = some ex ∧
      serviceManagedEq ex (mkK8sService r) = false ∧
      s = { mkK8sService r with clusterIP := ex.clusterIP } := by
  have hmem : Write.updateService s ∈ convergeService c r := by
    cases hconf : findConflict c r with
    | some p =>
      rw [reconcile_of_conflict hconf] at h
      exact absurd h (by simp)
    | none =>
      rw [reconcile_writes_of_noConflict hconf] at h
      simp only [List.mem_append] at h
      rcases h with ((((h | h) | h) | h) | h)
      · obtain ⟨cfg, hc⟩ := binderRemovalWrites_shape h
        exact absurd hc (by simp)
      · obtain ⟨cfg, hc⟩ := binderAddWrites_shape h
        exact absurd hc (by simp)
      · rcases vsWrites_shape h with ⟨v, hc⟩ | ⟨v, hc⟩ <;> exact absurd hc (by simp)
      · exact h
      · have := convergeStatus_shape h
        exact absurd this (by simp)
  unfold convergeService at hmem
  cases hs : getService c r.ns r.name with
  | none =>
    simp only [hs, List.mem_singleton] at hmem
    exact absurd hmem (by simp)
  | some ex =>
    simp only [hs] at hmem
    split at hmem
    · exact absurd hmem (by simp)
    · rename_i hne
      simp only [List.mem_singleton] at hmem
      injection hmem with h1
      have hne' : serviceManagedEq ex (mkK8sService r) = false := by
        cases hb : serviceManagedEq ex (mkK8sService r)
        · rfl
        · exact absurd hb hne
      exact ⟨ex, rfl, hne', h1⟩

theorem removeLabel_of_lookup_none {ls : List (String × String)} {k : String}
    (h : lookupLabel ls k = none) : removeLabel ls k = ls := by
  rw [lookupLabel, Option.map_eq_none'] at h
  rw [List.find?_eq_none] at h
  rw [removeLabel, List.filter_eq_self]
  intro p hp
  have hk := h p hp
  simp only [beq_iff_eq] at hk
  simp [bne_iff_ne, hk]

/-- C2: if a ConfigurationGroup referenced by the Route's RunLatest
entries already carries a binder label naming a different Route, the
reconcile returns the ConfigurationConflict failure and performs zero
writes of any kind. -/
theorem c2_conflict_zero_writes (dc : DomainConfig) (c : Cluster) (r : Route)
    (cfg : Configuration) (owner : String)
    (hmem : cfg ∈ referencedConfigurations c r)
    (hlab : lookupLabel cfg.labels routeLabelKey = some owner)
    (hne : owner ≠ r.name) :
    (reconcile dc c r).writes = [] ∧
      ∃ g o, (reconcile dc c r).err = some (.configurationConflict g o) := by
  cases hc : findConflict c r with
  | none =>
    exfalso
    rw [findConflict, List.findSome?_eq_none_iff] at hc
    have hcfg := hc cfg hmem
    simp only [hlab] at hcfg
    rw [if_pos (by simp [bne_iff_ne, hne])] at hcfg
    exact absurd hcfg (by simp)
  | some p =>
    rw [reconcile_of_conflict hc]
    exact ⟨rfl, p.1, p.2, rfl⟩

/-- Witness for C2 at the "config labelled by another route" row of the
table test: the referenced group is bound to another Route and the
reconcile produces zero writes and a conflict failure. -/
theorem c2_conflict_zero_writes_witness :
    (reconcile defaultDomainConfig lickedCluster lickedRoute).writes = [] ∧
      ∃ g o, (reconcile defaultDomainConfig lickedCluster lickedRoute).err
        = some (.configurationConflict g o) :=
  c2_conflict_zero_writes defaultDomainConfig lickedCluster lickedRoute
    (addConfigLabel (simpleReadyConfig "default" "config") routeLabelKey "this-cookie-has-been-licked")
    "this-cookie-has-been-licked" (by decide) (by decide) (by decide)

/-- C9: for a Route whose traffic entries are all Pinned, the reconcile
issues an update write to any existing ConfigurationGroup of its
namespace even though that group carries no binder label, and the written
object is identical to the stored one — the removal of an absent binder
label is not suppressed as a no-op. -/
theorem c9_pinned_spurious_update (dc : DomainConfig) (c : Cluster) (r : Route)
    (cfg : Configuration)
    (hpin : r.traffic.all (fun e => e.revisionName != "") = true)
    (hmem : cfg ∈ c.configurations) (hns : cfg.ns = r.ns)
    (hnl : lookupLabel cfg.labels routeLabelKey = none) :
    Write.updateConfiguration { cfg with labels := removeLabel cfg.labels routeLabelKey }
        ∈ (reconcile dc c r).writes ∧
      Configuration.mk cfg.ns cfg.name (removeLabel cfg.labels routeLabelKey)
          cfg.latestCreatedRevisionName cfg.latestReadyRevisionName = cfg := by
  have hrefs : referencedNames r = [] := by
    rw [referencedNames]
    have : r.traffic.filterMap (fun e =>
        if e.revisionName == "" then some e.configurationName else none) = [] := by
      rw [List.filterMap_eq_nil_iff]
      intro e he
      rw [List.all_eq_true] at hpin
      have := hpin e he
      rw [if_neg (by simp_all [bne_iff_ne])]
    rw [this]
    rfl
  have hconf : findConflict c r = none := by
    rw [findConflict, referencedConfigurations, hrefs]
    rfl
  constructor
  · rw [reconcile_writes_of_noConflict hconf]
    have hin : Write.updateConfiguration { cfg with labels := removeLabel cfg.labels routeLabelKey }
        ∈ binderRemovalWrites c r := by
      rw [binderRemovalWrites, List.mem_map]
      refine ⟨cfg, ?_, rfl⟩
      rw [List.mem_filter]
      refine ⟨hmem, ?_⟩
      rw [hrefs, hns]
      simp
    simp only [List.mem_append]
    exact .inl (.inl (.inl (.inl hin)))
  · rw [removeLabel_of_lookup_none hnl]

/-- Witness for C9 at the converged "pinned route becomes ready" state:
the parent Configuration has no binder label yet receives an update write
equal to the stored object. -/
theorem c9_pinned_spurious_update_witness :
    Write.updateConfiguration { simpleReadyConfig "default" "config" with
        labels := removeLabel (simpleReadyConfig "default" "config").labels routeLabelKey }
        ∈ (reconcile defaultDomainConfig pinnedCluster pinnedRoute).writes ∧
      Configuration.mk (simpleReadyConfig "default" "config").ns
          (simpleReadyConfig "default" "config").name
          (removeLabel (simpleReadyConfig "default" "config").labels routeLabelKey)
          (simpleReadyConfig "default" "config").latestCreatedRevisionName
          (simpleReadyConfig "default" "config").latestReadyRevisionName
        = simpleReadyConfig "default" "config" :=
  c9_pinned_spurious_update defaultDomainConfig pinnedCluster pinnedRoute
    (simpleReadyConfig "default" "config") (by decide) (by decide) (by decide) (by decide)

/-- C10: every Route status written by a reconcile carries exactly the
paired conditions `[AllTrafficAssigned, Ready]` with identical status,
reason and message; the shared status is True when the reconcile
succeeds and False when it reports a resolution failure. -/
theorem c10_conditions_paired (dc : DomainConfig) (c : Cluster) (r : Route)
    (ns n : String) (st : RouteStatus)
    (h : Write.updateRouteStatus ns n st ∈ (reconcile dc c r).writes) :
    ∃ s re msg,
      st.conditions =
        [{ ctype := .allTrafficAssigned, status := s, reason := re, message := msg },
         { ctype := .ready, status := s, reason := re, message := msg }] ∧
      ((reconcile dc c r).err = none → s = .ctrue) ∧
      (∀ e, (reconcile dc c r).err = some (.resolutionFailed e) → s = .cfalse) := by
  obtain ⟨-, -, hst, hconf⟩ := mem_writes_updateRouteStatus h
  rw [reconcile_err_of_noConflict hconf]
  cases hres : resolveTraffic c r.ns r.traffic with
  | ok ts =>
    rw [hres] at hst
    subst hst
    refine ⟨.ctrue, "", "", rfl, fun _ => rfl, ?_⟩
    intro e he
    rw [reconcileErr, hres] at he
    exact absurd he (by simp)
  | error e =>
    rw [hres] at hst
    subst hst
    exact ⟨.cfalse, (failureReason e).1, (failureReason e).2, rfl, by
      intro hnone
      rw [reconcileErr, hres] at hnone
      exact absurd hnone (by simp), fun _ _ => rfl⟩

/-- Witness for C10 at the "simple route becomes ready" row: the status
written there carries the paired True conditions. -/
theorem c10_conditions_paired_witness :
    ∃ s re msg,
      (computedStatus (routeDomain defaultDomainConfig becomesReadyRoute)
          (resolveTraffic becomesReadyCluster becomesReadyRoute.ns becomesReadyRoute.traffic)).conditions =
        [{ ctype := .allTrafficAssigned, status := s, reason := re, message := msg },
         { ctype := .ready, status := s, reason := re, message := msg }] ∧
      ((reconcile defaultDomainConfig becomesReadyCluster becomesReadyRoute).err = none → s = .ctrue) ∧
      (∀ e, (reconcile defaultDomainConfig becomesReadyCluster becomesReadyRoute).err
          = some (.resolutionFailed e) → s = .cfalse) :=
  c10_conditions_paired defaultDomainConfig becomesReadyCluster becomesReadyRoute
    "default" "becomes-ready"
    (computedStatus (routeDomain defaultDomainConfig becomesReadyRoute)
      (resolveTraffic becomesReadyCluster becomesReadyRoute.ns becomesReadyRoute.traffic))
    (by decide)

theorem resolveEntry_percent {c : Cluster} {ns : String} {e : TrafficTarget}
    {t : RevisionTarget} (h : resolveEntry c ns e = .ok t) : t.percent = e.percent := by
  unfold resolveEntry at h
  split at h
  · cases hr : getRevision c ns e.revisionName <;> simp only [hr] at h
    · exact absurd h (by simp)
    · rw [Except.ok.injEq] at h
      subst h
      rfl
  · cases hc : getConfiguration c ns e.configurationName <;> simp only [hc] at h
    · exact absurd h (by simp)
    · split at h
      · exact absurd h (by simp)
      · rename_i cfg hlr
        cases hr : getRevision c ns cfg.latestReadyRevisionName <;> simp only [hr] at h
        · exact absurd h (by simp)
        · rw [Except.ok.injEq] at h
          subst h
          rfl

/-- C8: a successful traffic resolution carries every entry's percent
through unchanged, in order, so the sum of the output target percents
equals the sum of the input spec percents. -/
theorem c8_percent_conservation (c : Cluster) (ns : String)
    (entries : List TrafficTarget) (ts : List RevisionTarget)
    (h : resolveTraffic c ns entries = .ok ts) :
    ts.map (fun t => t.percent) = entries.map (fun e => e.percent) ∧
      (ts.map (fun t => t.percent)).sum = (entries.map (fun e => e.percent)).sum := by
  suffices hmap : ts.map (fun t => t.percent) = entries.map (fun e => e.percent) by
    exact ⟨hmap, by rw [hmap]⟩
  induction entries generalizing ts with
  | nil =>
    rw [resolveTraffic, Except.ok.injEq] at h
    subst h
    rfl
  | cons e es ih =>
    unfold resolveTraffic at h
    cases he : resolveEntry c ns e <;> simp only [he] at h
    · exact absurd h (by simp)
    · cases hr : resolveTraffic c ns es <;> simp only [hr] at h
      · exact absurd h (by simp)
      · rw [Except.ok.injEq] at h
        subst h
        simp only [List.map_cons]
        rw [resolveEntry_percent he, ih _ hr]

/-- Witness for C8 at the "traffic split becomes ready" row: two
RunLatest entries of 50% each resolve to two 50% targets in order,
totalling 100. -/
theorem c8_percent_conservation_witness :
    ([{ name := "", configurationName := "blue", revisionName := "blue-00001",
        percent := 50, active := true },
      { name := "", configurationName := "green", revisionName := "green-00001",
        percent := 50, active := true }].map (fun (t : RevisionTarget) => t.percent))
        = splitRoute.traffic.map (fun e => e.percent) ∧
      (([{ name := "", configurationName := "blue", revisionName := "blue-00001",
           percent := 50, active := true },
         { name := "", configurationName := "green", revisionName := "green-00001",
           percent := 50, active := true }].map (fun (t : RevisionTarget) => t.percent)).sum
        = (splitRoute.traffic.map (fun e => e.percent)).sum) :=
  c8_percent_conservation splitCluster "default" splitRoute.traffic
    [{ name := "", configurationName := "blue", revisionName := "blue-00001",
       percent := 50, active := true },
     { name := "", configurationName := "green", revisionName := "green-00001",
       percent := 50, active := true }] (by decide)

/-- Recognize a ConfigurationGroup write. -/
def isConfigurationWrite : Write → Bool
  | .updateConfiguration _ => true
  | _ => false

/-- Counterexample to C1 as stated: at the "configuration not yet ready"
row of the table test, traffic resolution fails with ConfigurationMissing
and yet the reconcile's writes add the binder label to the referenced
ConfigurationGroup. -/
theorem c1_counterexample :
    resolveTraffic notReadyCluster firstReconcileRoute.ns firstReconcileRoute.traffic
        = .error (.configurationMissing "not-ready") ∧
      Write.updateConfiguration
          (addConfigLabel (simpleNotReadyConfig "default" "not-ready") routeLabelKey "first-reconcile")
        ∈ (reconcile defaultDomainConfig notReadyCluster firstReconcileRoute).writes := by
  exact ⟨by decide, by decide⟩

/-- C1 amended: when traffic resolution fails (and no binder conflict
exists) the reconcile still performs the binder's label writes on
ConfigurationGroups — exactly the removal updates for groups outside the
referenced set followed by the label additions for referenced groups;
binding writes are not suppressed by the resolution failure. -/
theorem c1_binder_runs_on_failure (dc : DomainConfig) (c : Cluster) (r : Route)
    (e : ResolveError)
    (hres : resolveTraffic c r.ns r.traffic = .error e)
    (hconf : findConflict c r = none) :
    (reconcile dc c r).writes.filter isConfigurationWrite
      = binderRemovalWrites c r ++ binderAddWrites c r := by
  rw [reconcile_writes_of_noConflict hconf]
  repeat rw [List.filter_append]
  have h1 : (binderRemovalWrites c r).filter isConfigurationWrite = binderRemovalWrites c r := by
    rw [List.filter_eq_self]
    intro w hw
    obtain ⟨cfg, rfl⟩ := binderRemovalWrites_shape hw
    rfl
  have h2 : (binderAddWrites c r).filter isConfigurationWrite = binderAddWrites c r := by
    rw [List.filter_eq_self]
    intro w hw
    obtain ⟨cfg, rfl⟩ := binderAddWrites_shape hw
    rfl
  have h3 : (vsWrites c r (routeDomain dc r) (resolveTraffic c r.ns r.traffic)).filter
      isConfigurationWrite = [] := by
    rw [hres]
    rfl
  have h4 : (convergeService c r).filter isConfigurationWrite = [] := by
    rw [List.filter_eq_nil_iff]
    intro w hw
    rcases convergeService_shape hw with ⟨s, rfl⟩ | ⟨s, rfl⟩ <;> simp [isConfigurationWrite]
  have h5 : (convergeStatus r (computedStatus (routeDomain dc r)
      (resolveTraffic c r.ns r.traffic))).filter isConfigurationWrite = [] := by
    rw [List.filter_eq_nil_iff]
    intro w hw
    rw [convergeStatus_shape hw]
    simp [isConfigurationWrite]
  rw [h1, h2, h3, h4, h5]
  simp

/-- Witness for C1's amended claim at the "configuration not yet ready"
row of the table test. -/
theorem c1_binder_runs_on_failure_witness :
    (reconcile defaultDomainConfig notReadyCluster firstReconcileRoute).writes.filter
        isConfigurationWrite
      = binderRemovalWrites notReadyCluster firstReconcileRoute
          ++ binderAddWrites notReadyCluster firstReconcileRoute :=
  c1_binder_runs_on_failure defaultDomainConfig notReadyCluster firstReconcileRoute
    (.configurationMissing "not-ready") (by decide) (by decide)

theorem resolveTraffic_prefix_error (c : Cluster) (ns : String) (e : TrafficTarget)
    (post : List TrafficTarget) (err : ResolveError)
    (he : resolveEntry c ns e = .error err) :
    ∀ pre : List TrafficTarget, (∃ ts, resolveTraffic c ns pre = .ok ts) →
      resolveTraffic c ns (pre ++ e :: post) = .error err := by
  intro pre
  induction pre with
  | nil =>
    intro _
    rw [List.nil_append]
    unfold resolveTraffic
    rw [he]
  | cons a pre ih =>
    rintro ⟨ts, hts⟩
    rw [List.cons_append]
    unfold resolveTraffic at hts ⊢
    cases ha : resolveEntry c ns a <;> simp only [ha] at hts ⊢
    · exact absurd hts (by simp)
    · cases hp : resolveTraffic c ns pre <;> simp only [hp] at hts
      · exact absurd hts (by simp)
      · rw [ih ⟨_, hp⟩]

/-- C4: when resolution trips on a RunLatest entry whose
ConfigurationGroup exists but has `latestReadyRevision` unset, the
reconcile fails with ConfigurationMissing — exactly the error of an
entirely absent group — yet the endpoint object is still created, no
mesh-rule object is created or updated, and the Route status is written
with both conditions False, reason "ConfigurationMissing" and the
message naming the group. -/
theorem c4_config_not_ready (dc : DomainConfig) (c : Cluster) (r : Route)
    (g nm : String) (p : Nat) (cfg : Configuration)
    (pre post : List TrafficTarget)
    (hsplit : r.traffic = pre
      ++ { name := nm, configurationName := g, revisionName := "", percent := p } :: post)
    (hpre : ∃ ts, resolveTraffic c r.ns pre = .ok ts)
    (hcfg : getConfiguration c r.ns g = some cfg)
    (hnr : cfg.latestReadyRevisionName = "")
    (hconf : findConflict c r = none)
    (hsvc : getService c r.ns r.name = none)
    (hstat : r.status ≠ computedStatus (routeDomain dc r) (.error (.configurationMissing g))) :
    resolveTraffic c r.ns r.traffic = .error (.configurationMissing g) ∧
      (reconcile dc c r).err = some (.resolutionFailed (.configurationMissing g)) ∧
      Write.createService (mkK8sService r) ∈ (reconcile dc c r).writes ∧
      (∀ v, Write.createVirtualService v ∉ (reconcile dc c r).writes) ∧
      (∀ v, Write.updateVirtualService v ∉ (reconcile dc c r).writes) ∧
      Write.updateRouteStatus r.ns r.name
          (computedStatus (routeDomain dc r) (.error (.configurationMissing g)))
        ∈ (reconcile dc c r).writes ∧
      (computedStatus (routeDomain dc r) (.error (.configurationMissing g))).conditions =
        [{ ctype := .allTrafficAssigned, status := .cfalse, reason := "ConfigurationMissing",
           message := "Referenced Configuration \"" ++ g ++ "\" not found" },
         { ctype := .ready, status := .cfalse, reason := "ConfigurationMissing",
           message := "Referenced Configuration \"" ++ g ++ "\" not found" }] := by
  have he : resolveEntry c r.ns
      { name := nm, configurationName := g, revisionName := "", percent := p }
      = .error (.configurationMissing g) := by
    unfold resolveEntry
    rw [if_neg (by simp)]
    simp only [hcfg]
    rw [if_pos (by simp [hnr])]
  have hres : resolveTraffic c r.ns r.traffic = .error (.configurationMissing g) := by
    rw [hsplit]
    exact resolveTraffic_prefix_error c r.ns _ post _ he pre hpre
  have hwrites := @reconcile_writes_of_noConflict dc c r hconf
  have hvsnil : vsWrites c r (routeDomain dc r) (resolveTraffic c r.ns r.traffic) = [] := by
    rw [hres]
    rfl
  have hsvcw : convergeService c r = [.createService (mkK8sService r)] := by
    unfold convergeService
    rw [hsvc]
  have hstw : convergeStatus r (computedStatus (routeDomain dc r)
      (resolveTraffic c r.ns r.traffic))
      = [.updateRouteStatus r.ns r.name
          (computedStatus (routeDomain dc r) (.error (.configurationMissing g)))] := by
    rw [hres, convergeStatus, if_neg (by simp [hstat])]
  refine ⟨hres, ?_, ?_, ?_, ?_, ?_, rfl⟩
  · rw [reconcile_err_of_noConflict hconf, reconcileErr, hres]
  · rw [hwrites, hsvcw]
    simp only [List.mem_append]
    exact .inl (.inr (by simp))
  · intro v hv
    rw [hwrites] at hv
    simp only [List.mem_append] at hv
    rcases hv with ((((hv | hv) | hv) | hv) | hv)
    · obtain ⟨x, hx⟩ := binderRemovalWrites_shape hv
      exact absurd hx (by simp)
    · obtain ⟨x, hx⟩ := binderAddWrites_shape hv
      exact absurd hx (by simp)
    · rw [hvsnil] at hv
      exact absurd hv (by simp)
    · rw [hsvcw] at hv
      simp only [List.mem_singleton] at hv
      exact absurd hv (by simp)
    · have := convergeStatus_shape hv
      exact absurd this (by simp)
  · intro v hv
    rw [hwrites] at hv
    simp only [List.mem_append] at hv
    rcases hv with ((((hv | hv) | hv) | hv) | hv)
    · obtain ⟨x, hx⟩ := binderRemovalWrites_shape hv
      exact absurd hx (by simp)
    · obtain ⟨x, hx⟩ := binderAddWrites_shape hv
      exact absurd hx (by simp)
    · rw [hvsnil] at hv
      exact absurd hv (by simp)
    · rw [hsvcw] at hv
      simp only [List.mem_singleton] at hv
      exact absurd hv (by simp)
    · have := convergeStatus_shape hv
      exact absurd this (by simp)
  · rw [hwrites, hstw]
    simp

/-- Witness for C4 at the "configuration not yet ready" row of the table
test: group "not-ready" exists without a latest ready revision. -/
theorem c4_config_not_ready_witness :
    resolveTraffic notReadyCluster firstReconcileRoute.ns firstReconcileRoute.traffic
        = .error (.configurationMissing "not-ready") ∧
      (reconcile defaultDomainConfig notReadyCluster firstReconcileRoute).err
        = some (.resolutionFailed (.configurationMissing "not-ready")) ∧
      Write.createService (mkK8sService firstReconcileRoute)
        ∈ (reconcile defaultDomainConfig notReadyCluster firstReconcileRoute).writes ∧
      (∀ v, Write.createVirtualService v
        ∉ (reconcile defaultDomainConfig notReadyCluster firstReconcileRoute).writes) ∧
      (∀ v, Write.updateVirtualService v
        ∉ (reconcile defaultDomainConfig notReadyCluster firstReconcileRoute).writes) ∧
      Write.updateRouteStatus firstReconcileRoute.ns firstReconcileRoute.name
          (computedStatus (routeDomain defaultDomainConfig firstReconcileRoute)
            (.error (.configurationMissing "not-ready")))
        ∈ (reconcile defaultDomainConfig notReadyCluster firstReconcileRoute).writes ∧
      (computedStatus (routeDomain defaultDomainConfig firstReconcileRoute)
          (.error (.configurationMissing "not-ready"))).conditions =
        [{ ctype := .allTrafficAssigned, status := .cfalse, reason := "ConfigurationMissing",
           message := "Referenced Configuration \"" ++ "not-ready" ++ "\" not found" },
         { ctype := .ready, status := .cfalse, reason := "ConfigurationMissing",
           message := "Referenced Configuration \"" ++ "not-ready" ++ "\" not found" }] :=
  c4_config_not_ready defaultDomainConfig notReadyCluster firstReconcileRoute
    "not-ready" "" 100 (simpleNotReadyConfig "default" "not-ready") [] []
    (by decide) ⟨[], by decide⟩ (by decide) (by decide) (by decide) (by decide) (by decide)

/-- Counterexample to C3 as stated: the converged "pinned route becomes
ready" state satisfies the claim's convergence premise — resolution
succeeds and status, binder labels, endpoint object and mesh-rule object
all match the desired state — yet the reconcile still issues a write
(the spurious Configuration update of TODO #1496). -/
theorem c3_counterexample :
    converged defaultDomainConfig pinnedCluster pinnedRoute = true ∧
      (reconcile defaultDomainConfig pinnedCluster pinnedRoute).writes ≠ [] := by
  exact ⟨by decide, by decide⟩

/-- C3 amended: a fully converged Route produces zero writes and succeeds
provided additionally every ConfigurationGroup of its namespace is
referenced by its RunLatest entries; without that proviso the
label-removal pass of TODO #1496 still writes. -/
theorem c3_converged_zero_writes (dc : DomainConfig) (c : Cluster) (r : Route)
    (hcv : converged dc c r = true)
    (hall : c.configurations.all (fun cfg =>
      !(cfg.ns == r.ns) || (referencedNames r).contains cfg.name) = true) :
    (reconcile dc c r).writes = [] ∧ (reconcile dc c r).err = none := by
  cases hres : resolveTraffic c r.ns r.traffic with
  | error e =>
    rw [converged, hres] at hcv
    exact absurd hcv (by simp)
  | ok ts =>
    rw [converged, hres] at hcv
    simp only [Bool.and_eq_true] at hcv
    obtain ⟨⟨⟨⟨hlab, hnostale⟩, hvs⟩, hsvc⟩, hstat⟩ := hcv
    rw [List.all_eq_true] at hlab
    rw [List.all_eq_true] at hall
    have hconf : findConflict c r = none := by
      rw [findConflict, List.findSome?_eq_none_iff]
      intro cfg hcfg
      have := hlab cfg hcfg
      rw [beq_iff_eq] at this
      rw [this]
      simp [bne_iff_ne]
    have hrem : binderRemovalWrites c r = [] := by
      rw [binderRemovalWrites]
      have : c.configurations.filter (fun cfg =>
          cfg.ns == r.ns && !((referencedNames r).contains cfg.name)) = [] := by
        rw [List.filter_eq_nil_iff]
        intro cfg hcfg
        have := hall cfg hcfg
        cases hbns : (cfg.ns == r.ns) <;> simp_all
      rw [this]
      rfl
    have hadd : binderAddWrites c r = [] := by
      rw [binderAddWrites, List.filterMap_eq_nil_iff]
      intro cfg hcfg
      rw [if_pos (hlab cfg hcfg)]
    rw [reconcile_writes_of_noConflict hconf, reconcile_err_of_noConflict hconf]
    constructor
    · rw [hrem, hadd, hres]
      simp only [vsWrites]
      rw [eq_of_beq hvs, eq_of_beq hsvc]
      rw [convergeStatus, if_pos hstat]
      rfl
    · rw [reconcileErr, hres]

/-- Witness for C3's amended claim at the "steady state" row of the table
test: the fully converged Route, whose only Configuration is the
referenced one, re-reconciles with zero writes and success. -/
theorem c3_converged_zero_writes_witness :
    (reconcile defaultDomainConfig steadyCluster steadyRoute).writes = [] ∧
      (reconcile defaultDomainConfig steadyCluster steadyRoute).err = none :=
  c3_converged_zero_writes defaultDomainConfig steadyCluster steadyRoute
    (by decide) (by decide)

theorem mem_writes_createService {dc : DomainConfig} {c : Cluster} {r : Route} {s : K8sService}
    (h : Write.createService s ∈ (reconcile dc c r).writes) :
    getService c r.ns r.name = none ∧ s = mkK8sService r := by
  have hmem : Write.createService s ∈ convergeService c r := by
    cases hconf : findConflict c r with
    | some p =>
      rw [reconcile_of_conflict hconf] at h
      exact absurd h (by simp)
    | none =>
      rw [reconcile_writes_of_noConflict hconf] at h
      simp only [List.mem_append] at h
      rcases h with ((((h | h) | h) | h) | h)
      · obtain ⟨cfg, hc⟩ := binderRemovalWrites_shape h
        exact absurd hc (by simp)
      · obtain ⟨cfg, hc⟩ := binderAddWrites_shape h
        exact absurd hc (by simp)
      · rcases vsWrites_shape h with ⟨v, hc⟩ | ⟨v, hc⟩ <;> exact absurd hc (by simp)
      · exact h
      · have := convergeStatus_shape h
        exact absurd this (by simp)
  unfold convergeService at hmem
  cases hs : getService c r.ns r.name with
  | none =>
    simp only [hs, List.mem_singleton] at hmem
    injection hmem with h1
    exact ⟨rfl, h1⟩
  | some ex =>
    simp only [hs] at hmem
    split at hmem
    · exact absurd hmem (by simp)
    · simp only [List.mem_singleton] at hmem
      exact absurd hmem (by simp)

/-- C6: the platform-assigned address of the endpoint object is excluded
from the convergence diff and preserved: when an existing endpoint object
matches the desired shape on the controller-managed fields (so possibly
differing only in its assigned address), the reconcile issues no endpoint
write at all; and any endpoint update write carries the previously
observed assigned address forward unchanged. -/
theorem c6_cluster_ip_preserved (dc : DomainConfig) (c : Cluster) (r : Route)
    (s : K8sService) :
    ((∃ ex, getService c r.ns r.name = some ex ∧ serviceManagedEq ex (mkK8sService r) = true) →
        Write.updateService s ∉ (reconcile dc c r).writes ∧
        Write.createService s ∉ (reconcile dc c r).writes) ∧
      (Write.updateService s ∈ (reconcile dc c r).writes →
        ∃ ex, getService c r.ns r.name = some ex ∧ s.clusterIP = ex.clusterIP) := by
  constructor
  · rintro ⟨ex, hex, hm⟩
    constructor
    · intro hmem
      obtain ⟨ex2, hex2, hm2, -⟩ := mem_writes_updateService hmem
      rw [hex] at hex2
      injection hex2 with hex2
      subst hex2
      rw [hm] at hm2
      exact absurd hm2 (by simp)
    · intro hmem
      obtain ⟨hnone, -⟩ := mem_writes_createService hmem
      rw [hex] at hnone
      exact absurd hnone (by simp)
  · intro hmem
    obtain ⟨ex, hex, -, hs⟩ := mem_writes_updateService hmem
    exact ⟨ex, hex, by rw [hs]⟩

/-- Witness for C6 at the "allow cluster ip" row of the table test: the
stored endpoint object carries the assigned address `127.0.0.1` and
matches the desired managed shape, so no endpoint write is issued. -/
theorem c6_cluster_ip_preserved_witness :
    Write.updateService (mkK8sService ipRoute)
        ∉ (reconcile defaultDomainConfig ipCluster ipRoute).writes ∧
      Write.createService (mkK8sService ipRoute)
        ∉ (reconcile defaultDomainConfig ipCluster ipRoute).writes :=
  (c6_cluster_ip_preserved defaultDomainConfig ipCluster ipRoute (mkK8sService ipRoute)).1
    ⟨setClusterIP (mkK8sService ipRoute) "127.0.0.1", by decide, by decide⟩

theorem pickDomain_none {labels : List (String × String)} :
    ∀ {dc : DomainConfig}, pickDomain labels dc = none →
      ∀ x ∈ dc, selectorMatches x.2 labels = false := by
  intro dc
  induction dc with
  | nil => intro _ x hx; exact absurd hx (by simp)
  | cons d ds ih =>
    intro h x hx
    rw [pickDomain] at h
    by_cases hm : selectorMatches d.2 labels = true
    · rw [if_pos hm] at h
      cases hrest : pickDomain labels ds <;> simp only [hrest] at h
      · exact absurd h (by simp)
      · split at h <;> exact absurd h (by simp)
    · rw [if_neg hm] at h
      rcases List.mem_cons.mp hx with rfl | hx2
      · cases hb : selectorMatches x.2 labels
        · rfl
        · exact absurd hb hm
      · exact ih h x hx2

theorem pickDomain_some {labels : List (String × String)} :
    ∀ {dc : DomainConfig} {chosen : String × DomainSelector},
      pickDomain labels dc = some chosen →
      ∃ pre suf, dc = pre ++ chosen :: suf ∧
        selectorMatches chosen.2 labels = true ∧
        (∀ x ∈ pre, selectorMatches x.2 labels = true → x.2.length < chosen.2.length) ∧
        (∀ x ∈ suf, selectorMatches x.2 labels = true → x.2.length ≤ chosen.2.length) := by
  intro dc
  induction dc with
  | nil => intro chosen h; exact absurd h (by simp [pickDomain])
  | cons d ds ih =>
    intro chosen h
    rw [pickDomain] at h
    by_cases hm : selectorMatches d.2 labels = true
    · rw [if_pos hm] at h
      cases hrest : pickDomain labels ds <;> simp only [hrest] at h
      · injection h with h
        subst h
        refine ⟨[], ds, rfl, hm, by simp, ?_⟩
        intro x hx hmx
        exact absurd hmx (by simp [pickDomain_none hrest x hx])
      · rename_i rb
        split at h
        · rename_i hgt
          injection h with h
          subst h
          obtain ⟨pre, suf, hds, hmc, hpre, hsuf⟩ := ih hrest
          refine ⟨d :: pre, suf, by rw [hds, List.cons_append], hmc, ?_, hsuf⟩
          intro x hx hmx
          rcases List.mem_cons.mp hx with rfl | hx2
          · exact hgt
          · exact hpre x hx2 hmx
        · rename_i hle
          injection h with h
          subst h
          obtain ⟨pre, suf, hds, hmc, hpre, hsuf⟩ := ih hrest
          refine ⟨[], ds, rfl, hm, by simp, ?_⟩
          intro x hx hmx
          have hrb : rb.2.length ≤ d.2.length := Nat.le_of_not_lt hle
          rw [hds] at hx
          rcases List.mem_append.mp hx with hx2 | hx2
          · exact Nat.le_of_lt (Nat.lt_of_lt_of_le (hpre x hx2 hmx) hrb)
          · rcases List.mem_cons.mp hx2 with rfl | hx3
            · exact hrb
            · exact Nat.le_trans (hsuf x hx3 hmx) hrb
    · rw [if_neg hm] at h
      obtain ⟨pre, suf, hds, hmc, hpre, hsuf⟩ := ih h
      refine ⟨d :: pre, suf, by rw [hds, List.cons_append], hmc, ?_, hsuf⟩
      intro x hx hmx
      rcases List.mem_cons.mp hx with rfl | hx2
      · exact absurd hmx hm
      · exact hpre x hx2 hmx

/-- C7: the computed Route domain is
`"<route-name>.<route-namespace>.<suffix>"` where the suffix comes from a
configured entry whose selector the Route's labels fully satisfy, which
has strictly more selector constraints than every satisfied entry
declared before it and at least as many as every satisfied entry declared
after it (most constraints win, ties broken by declared order); the
empty-selector entry guarantees a match exists. -/
theorem c7_domain_selection (dc : DomainConfig) (r : Route)
    (hfb : ∃ fb ∈ dc, fb.2 = ([] : DomainSelector)) :
    ∃ chosen pre suf, dc = pre ++ chosen :: suf ∧
      selectorMatches chosen.2 r.labels = true ∧
      (∀ x ∈ pre, selectorMatches x.2 r.labels = true → x.2.length < chosen.2.length) ∧
      (∀ x ∈ suf, selectorMatches x.2 r.labels = true → x.2.length ≤ chosen.2.length) ∧
      routeDomain dc r = r.name ++ "." ++ r.ns ++ "." ++ chosen.1 := by
  cases hp : pickDomain r.labels dc with
  | none =>
    exfalso
    obtain ⟨fb, hfbm, hfbe⟩ := hfb
    have := pickDomain_none hp fb hfbm
    rw [hfbe] at this
    exact absurd this (by simp [selectorMatches])
  | some chosen =>
    obtain ⟨pre, suf, hdc, hmc, hpre, hsuf⟩ := pickDomain_some hp
    refine ⟨chosen, pre, suf, hdc, hmc, hpre, hsuf, ?_⟩
    rw [routeDomain, hp]

/-- Witness for C7 at the "different labels, different domain" row of the
table test: the `app=prod` Route selects `another-example.com`. -/
theorem c7_domain_selection_witness :
    ∃ chosen pre suf, defaultDomainConfig = pre ++ chosen :: suf ∧
      selectorMatches chosen.2 differentDomainRoute.labels = true ∧
      (∀ x ∈ pre, selectorMatches x.2 differentDomainRoute.labels = true →
        x.2.length < chosen.2.length) ∧
      (∀ x ∈ suf, selectorMatches x.2 differentDomainRoute.labels = true →
        x.2.length ≤ chosen.2.length) ∧
      routeDomain defaultDomainConfig differentDomainRoute
        = differentDomainRoute.name ++ "." ++ differentDomainRoute.ns ++ "." ++ chosen.1 :=
  c7_domain_selection defaultDomainConfig differentDomainRoute
    ⟨("example.com", []), by decide, rfl⟩

/-- C5: when a Route previously bound to group `oldC` changes its spec to
reference group `newC`, with both groups ready, the reconcile performs
exactly four writes in this order: remove the binder label from `oldC`,
add the binder label to `newC`, update the mesh-rule object to route 100%
to `newC`'s latest ready revision, and update the Route status/traffic to
reference `newC`. -/
theorem c5_switch_four_writes (ns rn oldC newC oldRev newRev : String)
    (hcc : oldC ≠ newC) (hrv : oldRev ≠ newRev) (hnv : newRev ≠ "") :
    reconcile defaultDomainConfig (switchSpecCluster ns rn oldC newC oldRev newRev)
        (switchSpecRoute ns rn oldC newC oldRev) =
      { writes := [
          .updateConfiguration (readyConfigWith ns oldC oldRev []),
          .updateConfiguration (readyConfigWith ns newC newRev [(routeLabelKey, rn)]),
          .updateVirtualService (mkVirtualService (switchSpecRoute ns rn oldC newC oldRev)
            (rn ++ "." ++ ns ++ "." ++ "example.com")
            [{ name := "", configurationName := newC, revisionName := newRev,
               percent := 100, active := true }]),
          .updateRouteStatus ns rn
            { domain := rn ++ "." ++ ns ++ "." ++ "example.com", conditions := successConds,
              traffic := [{ name := "", configurationName := newC, revisionName := newRev,
                            percent := 100 }] }],
        err := none } := by
  have hbcc : (oldC == newC) = false := beq_eq_false_iff_ne.mpr hcc
  have hbcc2 : (newC == oldC) = false := beq_eq_false_iff_ne.mpr (Ne.symm hcc)
  have hbnv : (newRev == "") = false := beq_eq_false_iff_ne.mpr hnv
  have hbrv : (oldRev == newRev) = false := beq_eq_false_iff_ne.mpr hrv
  have h1 : referencedNames (switchSpecRoute ns rn oldC newC oldRev) = [newC] := by
    simp [referencedNames, switchSpecRoute, dedupStr]
  have h2 : getConfiguration (switchSpecCluster ns rn oldC newC oldRev newRev) ns newC
      = some (readyConfigWith ns newC newRev []) := by
    simp [getConfiguration, switchSpecCluster, readyConfigWith, List.find?, hbcc, hbcc2]
  have hns : (switchSpecRoute ns rn oldC newC oldRev).ns = ns := rfl
  have h3 : referencedConfigurations (switchSpecCluster ns rn oldC newC oldRev newRev)
      (switchSpecRoute ns rn oldC newC oldRev) = [readyConfigWith ns newC newRev []] := by
    simp [referencedConfigurations, hns, h1, h2]
  have h4 : findConflict (switchSpecCluster ns rn oldC newC oldRev newRev)
      (switchSpecRoute ns rn oldC newC oldRev) = none := by
    simp [findConflict, h3, lookupLabel, readyConfigWith]
  have h5 : binderRemovalWrites (switchSpecCluster ns rn oldC newC oldRev newRev)
      (switchSpecRoute ns rn oldC newC oldRev)
      = [.updateConfiguration (readyConfigWith ns oldC oldRev [])] := by
    simp [binderRemovalWrites, h1, hns, switchSpecCluster, readyConfigWith,
      List.filter, hbcc, removeLabel, List.contains, List.elem]
  have hname : (switchSpecRoute ns rn oldC newC oldRev).name = rn := rfl
  have h6 : binderAddWrites (switchSpecCluster ns rn oldC newC oldRev newRev)
      (switchSpecRoute ns rn oldC newC oldRev)
      = [.updateConfiguration (readyConfigWith ns newC newRev [(routeLabelKey, rn)])] := by
    simp [binderAddWrites, h3, hname, lookupLabel, readyConfigWith, setLabel]
  have hgr : getRevision (switchSpecCluster ns rn oldC newC oldRev newRev) ns newRev
      = some { ns := ns, name := newRev, ownerConfiguration := none } := by
    simp [getRevision, switchSpecCluster, List.find?, hbrv]
  have hre : resolveEntry (switchSpecCluster ns rn oldC newC oldRev newRev) ns
      { name := "", configurationName := newC, revisionName := "", percent := 100 }
      = .ok { name := "", configurationName := newC, revisionName := newRev,
              percent := 100, active := true } := by
    unfold resolveEntry
    rw [if_neg (by simp)]
    simp only [h2, readyConfigWith]
    rw [if_neg (by simp [hbnv])]
    simp only [hgr]
  have h7 : resolveTraffic (switchSpecCluster ns rn oldC newC oldRev newRev)
      (switchSpecRoute ns rn oldC newC oldRev).ns
      (switchSpecRoute ns rn oldC newC oldRev).traffic
      = .ok [{ name := "", configurationName := newC, revisionName := newRev,
               percent := 100, active := true }] := by
    show resolveTraffic _ ns
      [{ name := "", configurationName := newC, revisionName := "", percent := 100 }] = _
    unfold resolveTraffic
    rw [hre]
    rfl
  have h9 : routeDomain defaultDomainConfig (switchSpecRoute ns rn oldC newC oldRev)
      = rn ++ "." ++ ns ++ "." ++ "example.com" := rfl
  have hgv : getVirtualService (switchSpecCluster ns rn oldC newC oldRev newRev)
      (switchSpecRoute ns rn oldC newC oldRev).ns (switchSpecRoute ns rn oldC newC oldRev).name
      = some (mkVirtualService (switchSpecRoute ns rn oldC newC oldRev)
          (rn ++ "." ++ ns ++ "." ++ "example.com")
          [{ name := "", configurationName := oldC, revisionName := oldRev,
             percent := 100, active := true }]) := by
    simp [getVirtualService, switchSpecCluster, mkVirtualService, List.find?]
  have hvne : ((mkVirtualService (switchSpecRoute ns rn oldC newC oldRev)
        (rn ++ "." ++ ns ++ "." ++ "example.com")
        [{ name := "", configurationName := oldC, revisionName := oldRev,
           percent := 100, active := true }])
      == (mkVirtualService (switchSpecRoute ns rn oldC newC oldRev)
        (rn ++ "." ++ ns ++ "." ++ "example.com")
        [{ name := "", configurationName := newC, revisionName := newRev,
           percent := 100, active := true }])) = false := by
    rw [beq_eq_false_iff_ne]
    intro heq
    have htg := congrArg VirtualService.targets heq
    simp [mkVirtualService, groupTargets, dedupStr] at htg
    exact hcc htg.1
  have h8 : vsWrites (switchSpecCluster ns rn oldC newC oldRev newRev)
      (switchSpecRoute ns rn oldC newC oldRev) (rn ++ "." ++ ns ++ "." ++ "example.com")
      (.ok [{ name := "", configurationName := newC, revisionName := newRev,
              percent := 100, active := true }])
      = [.updateVirtualService (mkVirtualService (switchSpecRoute ns rn oldC newC oldRev)
          (rn ++ "." ++ ns ++ "." ++ "example.com")
          [{ name := "", configurationName := newC, revisionName := newRev,
             percent := 100, active := true }])] := by
    simp only [vsWrites, convergeVirtualService, hgv]
    rw [if_neg (by simp [hvne])]
  have h10 : convergeService (switchSpecCluster ns rn oldC newC oldRev newRev)
      (switchSpecRoute ns rn oldC newC oldRev) = [] := by
    simp [convergeService, getService, switchSpecCluster, List.find?, mkK8sService,
      serviceManagedEq]
  have hstne : ((switchSpecRoute ns rn oldC newC oldRev).status
      == computedStatus (rn ++ "." ++ ns ++ "." ++ "example.com")
        (.ok [{ name := "", configurationName := newC, revisionName := newRev,
                percent := 100, active := true }])) = false := by
    rw [beq_eq_false_iff_ne]
    intro heq
    have htr := congrArg RouteStatus.traffic heq
    simp [switchSpecRoute, computedStatus, targetToTrafficTarget] at htr
    exact hcc htr.1
  have h11 : convergeStatus (switchSpecRoute ns rn oldC newC oldRev)
      (computedStatus (rn ++ "." ++ ns ++ "." ++ "example.com")
        (.ok [{ name := "", configurationName := newC, revisionName := newRev,
                percent := 100, active := true }]))
      = [.updateRouteStatus ns rn
          { domain := rn ++ "." ++ ns ++ "." ++ "example.com", conditions := successConds,
            traffic := [{ name := "", configurationName := newC, revisionName := newRev,
                          percent := 100 }] }] := by
    rw [convergeStatus, if_neg (by simp [hstne])]
    rfl
  have hwr : (reconcile defaultDomainConfig (switchSpecCluster ns rn oldC newC oldRev newRev)
      (switchSpecRoute ns rn oldC newC oldRev)).writes
      = [.updateConfiguration (readyConfigWith ns oldC oldRev []),
         .updateConfiguration (readyConfigWith ns newC newRev [(routeLabelKey, rn)]),
         .updateVirtualService (mkVirtualService (switchSpecRoute ns rn oldC newC oldRev)
           (rn ++ "." ++ ns ++ "." ++ "example.com")
           [{ name := "", configurationName := newC, revisionName := newRev,
              percent := 100, active := true }]),
         .updateRouteStatus ns rn
           { domain := rn ++ "." ++ ns ++ "." ++ "example.com", conditions := successConds,
             traffic := [{ name := "", configurationName := newC, revisionName := newRev,
                           percent := 100 }] }] := by
    rw [reconcile_writes_of_noConflict h4, h9, h7, h5, h6, h8, h10, h11]
    rfl
  have her : (reconcile defaultDomainConfig (switchSpecCluster ns rn oldC newC oldRev newRev)
      (switchSpecRoute ns rn oldC newC oldRev)).err = none := by
    rw [reconcile_err_of_noConflict h4, reconcileErr, h7]
  have heta : reconcile defaultDomainConfig (switchSpecCluster ns rn oldC newC oldRev newRev)
      (switchSpecRoute ns rn oldC newC oldRev)
      = { writes := (reconcile defaultDomainConfig (switchSpecCluster ns rn oldC newC oldRev newRev)
            (switchSpecRoute ns rn oldC newC oldRev)).writes,
          err := (reconcile defaultDomainConfig (switchSpecCluster ns rn oldC newC oldRev newRev)
            (switchSpecRoute ns rn oldC newC oldRev)).err } := rfl
  rw [heta, hwr, her]


/-- Witness for C5 at the concrete names of the "switch to a different
config" row of the table test. -/
theorem c5_switch_four_writes_witness :
    reconcile defaultDomainConfig
        (switchSpecCluster "default" "change-configs" "oldconfig" "newconfig"
          "oldconfig-00001" "newconfig-00001")
        (switchSpecRoute "default" "change-configs" "oldconfig" "newconfig" "oldconfig-00001") =
      { writes := [
          .updateConfiguration (readyConfigWith "default" "oldconfig" "oldconfig-00001" []),
          .updateConfiguration (readyConfigWith "default" "newconfig" "newconfig-00001"
            [(routeLabelKey, "change-configs")]),
          .updateVirtualService (mkVirtualService
            (switchSpecRoute "default" "change-configs" "oldconfig" "newconfig" "oldconfig-00001")
            ("change-configs" ++ "." ++ "default" ++ "." ++ "example.com")
            [{ name := "", configurationName := "newconfig", revisionName := "newconfig-00001",
               percent := 100, active := true }]),
          .updateRouteStatus "default" "change-configs"
            { domain := "change-configs" ++ "." ++ "default" ++ "." ++ "example.com",
              conditions := successConds,
              traffic := [{ name := "", configurationName := "newconfig",
                            revisionName := "newconfig-00001", percent := 100 }] }],
        err := none } :=
  c5_switch_four_writes "default" "change-configs" "oldconfig" "newconfig"
    "oldconfig-00001" "newconfig-00001" (by decide) (by decide) (by decide)


end Serving
